import Mathlib

/-!
Verification of the configuration layer of the ovn-kubernetes controller
(`go-controller/pkg/config/config.go`, `go-controller/cmd/ovnkube/ovnkube.go`,
and the management-port derivation in `pkg/ovn`).

Strings are embedded as `List Char` (`Str`); the Go standard-library helpers
used by the code (`strings.Split`, `strings.Replace`, `net.ParseIP`,
`net.ParseCIDR`, `net.SplitHostPort`, `strconv.ParseUint`) are modelled
faithfully for the IPv4 inputs this code consumes.  IPv4 addresses are `Nat`
values below 2^32.
-/

abbrev Str := List Char

deriving instance DecidableEq for Except

def str (s : String) : Str := s.toList

/-- Go `strings.Split(s, sep)` for a one-character separator: always returns
at least one (possibly empty) segment. -/
def splitOnChar (c : Char) : Str → List Str
  | [] => [[]]
  | x :: xs =>
    if x = c then [] :: splitOnChar c xs
    else ((x :: (splitOnChar c xs).headD []) :: (splitOnChar c xs).tail)

def containsChar (c : Char) : Str → Bool
  | [] => false
  | x :: xs => x == c || containsChar c xs

def indexOfChar (c : Char) : Str → Option Nat
  | [] => none
  | x :: xs => if x = c then some 0 else (indexOfChar c xs).map (· + 1)

/-- Go `strings.Replace(s, "//", "", -1)`: removes every non-overlapping
occurrence of `//`, scanning left to right. -/
def removeDoubleSlash : Str → Str
  | '/' :: '/' :: rest => removeDoubleSlash rest
  | c :: rest => c :: removeDoubleSlash rest
  | [] => []

/-- Go `strings.HasPrefix(s, pre)`. -/
def strStartsWith : Str → Str → Bool
  | _, [] => true
  | [], _ :: _ => false
  | c :: cs, p :: ps => c == p && strStartsWith cs ps

/-- Digit-accumulation loop of Go `net.dtoi`: consumes leading decimal digits
into `n`, failing once the accumulator reaches the constant `big = 0xFFFFFF`. -/
def dtoiGo : Str → Nat → Option (Nat × Str)
  | [], n => some (n, [])
  | c :: rest, n =>
    if c.isDigit then
      if n * 10 + (c.toNat - '0'.toNat) ≥ 0xFFFFFF then none
      else dtoiGo rest (n * 10 + (c.toNat - '0'.toNat))
    else some (n, c :: rest)

/-- Go `net.dtoi`: reads a decimal number from the front of `s`, requiring at
least one digit; returns the value and the unread remainder. -/
def dtoi (s : Str) : Option (Nat × Str) :=
  match s with
  | [] => none
  | c :: _ => if c.isDigit then dtoiGo s 0 else none

/-- One octet of Go `net.parseIPv4`: a decimal number that must be ≤ 0xFF. -/
def parseOctet (s : Str) : Option (Nat × Str) :=
  match dtoi s with
  | none => none
  | some (n, rest) => if n > 255 then none else some (n, rest)

/-- Go `net.parseIPv4`: four dot-separated decimal octets, consuming the whole
string; result is the 32-bit value of the address. -/
def parseIPv4 (s : Str) : Option Nat :=
  match parseOctet s with
  | none => none
  | some (a, r1) =>
    match r1 with
    | '.' :: r1x =>
      match parseOctet r1x with
      | none => none
      | some (b, r2) =>
        match r2 with
        | '.' :: r2x =>
          match parseOctet r2x with
          | none => none
          | some (c, r3) =>
            match r3 with
            | '.' :: r3x =>
              match parseOctet r3x with
              | none => none
              | some (d, r4) =>
                if r4 = [] then some (a * 16777216 + b * 65536 + c * 256 + d)
                else none
            | _ => none
        | _ => none
    | _ => none

def firstDotOrColon : Str → Option Char
  | [] => none
  | c :: rest => if c = '.' ∨ c = ':' then some c else firstDotOrColon rest

/-- Go `net.ParseIP`: dispatches on the first `.` or `:`.  The `:` branch
(IPv6) is unreachable at every call site in this code because hosts there are
segments of a `:`-split and hence colon-free, so it is mapped to `none`
together with the no-dot-no-colon case, which Go also rejects. -/
def goParseIP (s : Str) : Option Nat :=
  match firstDotOrColon s with
  | some '.' => parseIPv4 s
  | _ => none

/-- Clears the low `h` bits of `x`; this is what masking an IPv4 address with
the length-(32−h) CIDR mask (`ip.Mask(m)` in Go) computes. -/
def maskTrunc (h x : Nat) : Nat := 2 ^ h * (x / 2 ^ h)

/-- Go `net.ParseCIDR` restricted to IPv4 (every cluster or host subnet this
code parses is dotted-quad): returns the address as written, the masked base
(`IPNet.IP`) and the prefix length.  The mask is read by `dtoi`, must consume
the whole suffix and be ≤ 32. -/
def goParseCIDR (s : Str) : Option (Nat × Nat × Nat) :=
  match indexOfChar '/' s with
  | none => none
  | some i =>
    match parseIPv4 (s.take i) with
    | none => none
    | some ip =>
      match dtoi (s.drop (i + 1)) with
      | none => none
      | some (n, rest) =>
        if rest = [] ∧ n ≤ 32 then some (ip, maskTrunc (32 - n) ip, n)
        else none

/-- Go `net.SplitHostPort` applied to `s1 ++ ":" ++ s2` where `s1` and `s2`
contain no colon (always the case at the call site: both are segments of a
`:`-split, so the separating colon is the last and only colon).  Follows the
branch structure of the Go function; all error cases collapse to `none`. -/
def splitHostPortGo (s1 s2 : Str) : Option (Str × Str) :=
  match s1 with
  | '[' :: _ =>
    match indexOfChar ']' (s1 ++ ':' :: s2) with
    | none => none
    | some e =>
      if e + 1 = (s1 ++ ':' :: s2).length then none
      else if e + 1 = s1.length then
        if containsChar '[' ((s1 ++ ':' :: s2).drop 1) then none
        else if containsChar ']' ((s1 ++ ':' :: s2).drop (e + 1)) then none
        else some ((s1.drop 1).take (e - 1), s2)
      else none
  | _ =>
    if containsChar ':' s1 then none
    else if containsChar '[' (s1 ++ ':' :: s2) then none
    else if containsChar ']' (s1 ++ ':' :: s2) then none
    else some (s1, s2)

/-! ## The OVN database authentication configuration (`config.go`) -/

/-- Transport scheme of an OVN database connection (`OvnDBScheme`). -/
inductive OvnDBScheme where
  | ssl
  | tcp
  | unix
deriving DecidableEq

/-- Client-side view of an OVN database connection (`OvnDBAuth`); the command
plumbing fields (`ctlCmd`, `externalID`, `exec`) carry no configuration
content and are omitted. -/
structure OvnDBAuth where
  ovnAddressForClient : Str
  privKey : Str
  cert : Str
  caCert : Str
  scheme : OvnDBScheme
deriving DecidableEq

/-- Error cases of `newOvnDBAuth`, one constructor per `fmt.Errorf` site; the
payloads kept are those the claims talk about (the offending host:port, the
offending scheme).  `certsWithoutAddress` and `certsWithTCP` print the same
message in Go but come from distinct return statements. -/
inductive OvnDBAuthError where
  | certsWithoutAddress
  | parseAddress
  | invalidProtocols
  | splitHostPortFailed (hostPort : Str)
  | hostNotIP (hostPort : Str)
  | sslMissingCerts
  | certsWithTCP
  | unknownScheme (scheme : Str)
deriving DecidableEq

/-- First `:`-separated component of an endpoint — its scheme field. -/
def schemePart (e : Str) : Str := (splitOnChar ':' e).headD []

/-- One iteration of the endpoint loop in `newOvnDBAuth` (config.go lines
734-766): splits the endpoint at colons, enforces the three-field shape,
fixes or checks the scheme, splits host/port and requires a numeric IP host.
Returns the scheme in force after this endpoint together with host and port. -/
def processOne (a : Str) (scheme : Str) : Except OvnDBAuthError (Str × Str × Str) :=
  if (splitOnChar ':' a).length = 3 then
    if scheme ≠ [] ∧ scheme ≠ (splitOnChar ':' a).headD [] then .error .invalidProtocols
    else
      match splitHostPortGo ((splitOnChar ':' a).getD 1 []) ((splitOnChar ':' a).getD 2 []) with
      | none => .error (.splitHostPortFailed ((splitOnChar ':' a).getD 1 [] ++ ':' :: (splitOnChar ':' a).getD 2 []))
      | some (host, port) =>
        match goParseIP host with
        | none => .error (.hostNotIP ((splitOnChar ':' a).getD 1 [] ++ ':' :: (splitOnChar ':' a).getD 2 []))
        | some _ => .ok (if scheme = [] then (splitOnChar ':' a).headD [] else scheme, host, port)
  else .error .parseAddress

/-- The endpoint loop of `newOvnDBAuth`: threads the scheme variable and the
accumulated `OvnAddressForClient` (rebuilt as `scheme:host:port` pieces joined
by commas) through `processOne`. -/
def processOvnAddresses : List Str → Str → Str → Except OvnDBAuthError (Str × Str)
  | [], scheme, acc => .ok (scheme, acc)
  | a :: rest, scheme, acc =>
    match processOne a scheme with
    | .error e => .error e
    | .ok (sch, host, port) =>
      processOvnAddresses rest sch
        (if acc = [] then sch ++ ':' :: host ++ ':' :: port
         else acc ++ ',' :: sch ++ ':' :: host ++ ':' :: port)

/-- Go `newOvnDBAuth` (config.go lines 710-787): empty address means the unix
scheme (and then no key or certificate may be given); otherwise `//` is
stripped, the comma-separated endpoints are processed, and the final scheme
selects ssl (requiring key, cert and CA cert), tcp (forbidding them), or the
unknown-scheme error. -/
def newOvnDBAuth (urlString privkey cert cacert : Str) : Except OvnDBAuthError OvnDBAuth :=
  if urlString = [] then
    if privkey ≠ [] ∨ cert ≠ [] ∨ cacert ≠ [] then .error .certsWithoutAddress
    else .ok ⟨[], [], [], [], .unix⟩
  else
    match processOvnAddresses (splitOnChar ',' (removeDoubleSlash urlString)) [] [] with
    | .error e => .error e
    | .ok (scheme, addr) =>
      if scheme = str "ssl" then
        if privkey = [] ∨ cert = [] ∨ cacert = [] then .error .sslMissingCerts
        else .ok ⟨addr, privkey, cert, cacert, .ssl⟩
      else if scheme = str "tcp" then
        if privkey ≠ [] ∨ cert ≠ [] ∨ cacert ≠ [] then .error .certsWithTCP
        else .ok ⟨addr, [], [], [], .tcp⟩
      else .error (.unknownScheme scheme)

/-- Raw per-database section of the config file / CLI (`rawOvnAuthConfig`). -/
structure RawOvnAuthConfig where
  address : Str
  clientPrivKey : Str
  clientCert : Str
  clientCACert : Str
deriving DecidableEq

def emptyRawOvnAuthConfig : RawOvnAuthConfig := ⟨[], [], [], []⟩

/-- Action of `overrideFields` on one string field: a non-empty source value
replaces the destination value. -/
def strOverride (d s : Str) : Str := if s = [] then d else s

/-- Action of `overrideFields` on one int field. -/
def intOverride (d s : Int) : Int := if s = 0 then d else s

/-- The reflection loop `overrideFields` applied to a `rawOvnAuthConfig`
destination and source (all four fields are strings). -/
def overrideRaw (dst src : RawOvnAuthConfig) : RawOvnAuthConfig :=
  ⟨strOverride dst.address src.address,
   strOverride dst.clientPrivKey src.clientPrivKey,
   strOverride dst.clientCert src.clientCert,
   strOverride dst.clientCACert src.clientCACert⟩

/-- Address selection at the top of `buildOvnAuth` (config.go lines 541-547):
command line first, then config file, then — only if `readAddress` — the
`ovs-vsctl` external-ids lookup, whose result is passed in as `ext`. -/
def effectiveOvnAddress (cliA confA : RawOvnAuthConfig) (readAddress : Bool) (ext : Str) : Str :=
  if cliA.address ≠ [] then cliA.address
  else if confA.address ≠ [] then confA.address
  else if readAddress then ext else []

/-- Merging step of `buildOvnAuth` (config.go lines 549-557): when the
effective address starts with `ssl`, default certificate and key paths under
`/etc/openvswitch` (named after the direction, `nb` or `sb`) are installed
before the config-file and command-line values are layered on top. -/
def buildOvnAuthRaw (dir : Str) (cliA confA : RawOvnAuthConfig) (readAddress : Bool) (ext : Str) : RawOvnAuthConfig :=
  overrideRaw
    (overrideRaw
      (if strStartsWith (effectiveOvnAddress cliA confA readAddress ext) (str "ssl") then
        ⟨effectiveOvnAddress cliA confA readAddress ext,
         str "/etc/openvswitch/ovn" ++ dir ++ str "-privkey.pem",
         str "/etc/openvswitch/ovn" ++ dir ++ str "-cert.pem",
         str "/etc/openvswitch/ovn" ++ dir ++ str "-ca.cert"⟩
      else ⟨effectiveOvnAddress cliA confA readAddress ext, [], [], []⟩)
      confA)
    cliA

/-- Go `buildOvnAuth` (config.go lines 537-567): the merged raw auth is handed
to `newOvnDBAuth`. -/
def buildOvnAuth (dir : Str) (cliA confA : RawOvnAuthConfig) (readAddress : Bool) (ext : Str) : Except OvnDBAuthError OvnDBAuth :=
  newOvnDBAuth (buildOvnAuthRaw dir cliA confA readAddress ext).address
    (buildOvnAuthRaw dir cliA confA readAddress ext).clientPrivKey
    (buildOvnAuthRaw dir cliA confA readAddress ext).clientCert
    (buildOvnAuthRaw dir cliA confA readAddress ext).clientCACert

/-- Go `(*OvnDBAuth).updateIP` (config.go lines 869-879) acting on the
`OvnAddressForClient` field: a non-empty address must split at colons into
exactly three fields, and is then rebuilt as `s[0] + ":" + newIP + s[2]`
(note: the Go code inserts no colon between `newIP` and `s[2]`).  An error
leaves the address unchanged, which the `Except` result models by not
producing a new address. -/
def updateIP (ovnAddressForClient newIP : Str) : Except Unit Str :=
  if ovnAddressForClient = [] then .ok ovnAddressForClient
  else
    if (splitOnChar ':' ovnAddressForClient).length = 3 then
      .ok ((splitOnChar ':' ovnAddressForClient).headD [] ++ ':' :: newIP
            ++ (splitOnChar ':' ovnAddressForClient).getD 2 [])
    else .error ()

/-- Well-formedness of one endpoint as enforced by the loop body: three
colon-separated fields, a host/port split that succeeds, and a host that
parses as a numeric IP. -/
def endpointHostOK (e : Str) : Prop :=
  (splitOnChar ':' e).length = 3 ∧
  ∃ hp, splitHostPortGo ((splitOnChar ':' e).getD 1 []) ((splitOnChar ':' e).getD 2 []) = some hp
        ∧ (goParseIP hp.1).isSome = true

/-! ## Field override and configuration precedence (`config.go`) -/

/-- One struct field as seen by the reflection loop `overrideFields`: the
config structs contain only string and int fields. -/
inductive GoField where
  | fstr (s : Str)
  | fint (i : Int)
deriving DecidableEq

/-- Zero test of `overrideFields`: empty string or zero int sources are
skipped. -/
def GoField.isZero : GoField → Bool
  | .fstr s => s.isEmpty
  | .fint i => i == 0

/-- Per-field action of `overrideFields`: a non-zero source replaces the
destination.  Go panics on mismatched field kinds; the function is only ever
applied to two values of the same struct type, where kinds agree. -/
def overrideField (d s : GoField) : GoField := if s.isZero then d else s

/-- Go `overrideFields` (config.go lines 182-211) on the field lists of two
structs of the same type. -/
def overrideFields (dst src : List GoField) : List GoField :=
  List.zipWith overrideField dst src

/-- The three-layer merge InitConfig performs for every section (config.go
lines 637-644, 516-518, 556-557): config-file values over the base, then
command-line values over that. -/
def mergeSection (base file cliv : List GoField) : List GoField :=
  overrideFields (overrideFields base file) cliv

/-- Fields of `DefaultConfig`, in struct order. -/
structure DefaultConfigM where
  mtu : Int
  conntrackZone : Int
  encapType : Str
  encapIP : Str
  inactivityProbe : Int
deriving DecidableEq

def DefaultConfigM.fields (c : DefaultConfigM) : List GoField :=
  [.fint c.mtu, .fint c.conntrackZone, .fstr c.encapType, .fstr c.encapIP, .fint c.inactivityProbe]

/-- Built-in defaults of the `Default` global (config.go lines 29-35). -/
def defaultBuiltin : DefaultConfigM := ⟨1400, 64000, str "geneve", [], 100000⟩

/-- Fields of `KubernetesConfig`, in struct order. -/
structure KubernetesConfigM where
  kubeconfig : Str
  cacert : Str
  apiserver : Str
  token : Str
deriving DecidableEq

def KubernetesConfigM.fields (c : KubernetesConfigM) : List GoField :=
  [.fstr c.kubeconfig, .fstr c.cacert, .fstr c.apiserver, .fstr c.token]

/-- Built-in defaults of the `Kubernetes` global (config.go lines 51-53). -/
def kubernetesBuiltin : KubernetesConfigM := ⟨[], [], str "http://localhost:8080", []⟩

/-- The `Defaults` flag struct selecting which values are discovered from the
OVS `external_ids` database. -/
structure DefaultsFlags where
  ovnNorthAddress : Bool
  k8sAPIServer : Bool
  k8sToken : Bool
  k8sCert : Bool

/-- Discovery step of `buildKubernetesConfig` (config.go lines 505-513): for
each selected flag the corresponding field of the global `Kubernetes` struct
(still holding its built-in default) is replaced by the `ovs-vsctl` external
ID, unconditionally — even when the lookup yields the empty string. -/
def k8sDiscover (ext : Str → Str) (d : DefaultsFlags) : KubernetesConfigM :=
  { kubernetesBuiltin with
    apiserver := if d.k8sAPIServer then ext (str "k8s-api-server") else kubernetesBuiltin.apiserver
    token := if d.k8sToken then ext (str "k8s-api-token") else kubernetesBuiltin.token
    cacert := if d.k8sCert then ext (str "k8s-ca-certificate") else kubernetesBuiltin.cacert }

/-- Merged `Kubernetes` field values produced by `buildKubernetesConfig`
(config.go lines 503-518) before its file-existence and URL validation, which
reads but never changes the merged values. -/
def buildKubernetesFields (ext : Str → Str) (d : DefaultsFlags) (file cliv : KubernetesConfigM) : List GoField :=
  mergeSection (k8sDiscover ext d).fields file.fields cliv.fields

/-- Merged `Default` section computed by InitConfigWithPath lines 637-638. -/
def initDefaultMerged (file cliv : DefaultConfigM) : List GoField :=
  mergeSection defaultBuiltin.fields file.fields cliv.fields

/-! ## Cluster subnet entries (`cmd/ovnkube/ovnkube.go`) -/

/-- Error cases of `parseClusterSubnetEntries`, one per return site. -/
inductive ClusterSubnetError where
  | badHostSubnetLength
  | badFormat
  | badCIDR
  | overlapping
deriving DecidableEq

/-- Go `cluster.CIDRNetworkEntry` as populated by the parser: the masked CIDR
base and prefix length (the `*net.IPNet`), and the host subnet length. -/
structure CIDRNetworkEntry where
  base : Nat
  maskLen : Nat
  hostSubnetLength : Nat
deriving DecidableEq

instance : Inhabited CIDRNetworkEntry := ⟨⟨0, 0, 0⟩⟩

/-- Go `(*net.IPNet).Contains` for an IPv4 network whose stored base comes
from `ParseCIDR` (and is therefore already masked): masks the candidate
address and compares with the base. -/
def goIPNetContains (base maskLen ip : Nat) : Bool :=
  maskTrunc (32 - maskLen) ip == base

/-- Go `cidrsOverlap` (ovnkube.go lines 316-324): the new CIDR contains some
listed entry's base address, or some listed entry contains the new CIDR's
base address. -/
def cidrsOverlap (base maskLen : Nat) (l : List CIDRNetworkEntry) : Bool :=
  l.any fun e => goIPNetContains base maskLen e.base || goIPNetContains e.base e.maskLen base

/-- Go `strconv.ParseUint(s, 10, 32)` as an acceptance test: non-empty, all
decimal digits, value below 2^32. -/
def parseUint32 (s : Str) : Option Nat :=
  if s = [] then none
  else if s.all Char.isDigit then
    if s.foldl (fun n c => n * 10 + (c.toNat - '0'.toNat)) 0 < 2 ^ 32 then
      some (s.foldl (fun n c => n * 10 + (c.toNat - '0'.toNat)) 0)
    else none
  else none

/-- Body of the entry loop in `parseClusterSubnetEntries` (ovnkube.go lines
280-308): three slash-separated parts carry an explicit host subnet length,
two parts default it to 24, anything else is malformed; then the first two
parts are parsed as a CIDR.  Returns (masked base, prefix length, host subnet
length). -/
def parseSubnetEntry (entry : Str) : Except ClusterSubnetError (Nat × Nat × Nat) :=
  if (splitOnChar '/' entry).length = 3 then
    match parseUint32 ((splitOnChar '/' entry).getD 2 []) with
    | none => .error .badHostSubnetLength
    | some hl =>
      match goParseCIDR ((splitOnChar '/' entry).headD [] ++ '/' :: (splitOnChar '/' entry).getD 1 []) with
      | none => .error .badCIDR
      | some (_, base, n) => .ok (base, n, hl)
  else if (splitOnChar '/' entry).length = 2 then
    match goParseCIDR ((splitOnChar '/' entry).headD [] ++ '/' :: (splitOnChar '/' entry).getD 1 []) with
    | none => .error .badCIDR
    | some (_, base, n) => .ok (base, n, 24)
  else .error .badFormat

/-- The entry loop of `parseClusterSubnetEntries`: each parsed entry is
checked against the already-accepted list with `cidrsOverlap` and appended. -/
def parseClusterSubnetLoop : List Str → List CIDRNetworkEntry → Except ClusterSubnetError (List CIDRNetworkEntry)
  | [], acc => .ok acc
  | e :: rest, acc =>
    match parseSubnetEntry e with
    | .error err => .error err
    | .ok (base, n, hl) =>
      if cidrsOverlap base n acc then .error .overlapping
      else parseClusterSubnetLoop rest (acc ++ [⟨base, n, hl⟩])

/-- Go `parseClusterSubnetEntries` (ovnkube.go lines 275-313). -/
def parseClusterSubnetEntries (s : Str) : Except ClusterSubnetError (List CIDRNetworkEntry) :=
  parseClusterSubnetLoop (splitOnChar ',' s) []

/-- Membership of an address in the range covered by an entry's CIDR. -/
def inEntry (e : CIDRNetworkEntry) (x : Nat) : Prop :=
  maskTrunc (32 - e.maskLen) x = e.base

/-- Two entries cover no common address. -/
def EntryDisjoint (a b : CIDRNetworkEntry) : Prop :=
  ∀ x, ¬(inEntry a x ∧ inEntry b x)

/-! ## Management port addresses (`pkg/ovn`, `CreateManagementPort`) -/

/-- Modelled from the spec: `util.NextIP` (pkg/util is not under src/) — the
successor of an IP address, backing §3's reservation of the first addresses
of a host subnet; 32-bit IPv4 arithmetic. -/
def nextIP (v : Nat) : Nat := (v + 1) % 2 ^ 32

/-- Address derivation of `CreateManagementPort` (config.go lines 1097-1157 in
the concatenated source): parse `localSubnet`, step once for the router port
IP, once more for the management port IP; the mask size is the subnet's
prefix length.  The surrounding ovs-vsctl/ovn-nbctl invocations consume these
values unchanged. -/
def createManagementPortAddresses (localSubnet : Str) : Option (Nat × Nat × Nat) :=
  match goParseCIDR localSubnet with
  | none => none
  | some (ip, _, n) => some (nextIP ip, nextIP (nextIP ip), n)

/-- Follows the spec's words (§3 and §8 S2: the reserved addresses are `.0`
and `.1`, endpoints start at `.2`): `HostSubnet[i]` is the i-th address of
the host subnet counting from the network address itself. -/
def specHostSubnetAddr (base i : Nat) : Nat := base + i

/-- Shape relation between a cluster-subnet entry string and the parsed
record: two or three slash-separated parts, and with two parts the host
subnet length is the backwards-compatibility default 24. -/
def entryShapeOK (e : Str) (ent : CIDRNetworkEntry) : Prop :=
  ((splitOnChar '/' e).length = 2 ∨ (splitOnChar '/' e).length = 3) ∧
  ((splitOnChar '/' e).length = 2 → ent.hostSubnetLength = 24)

/-! ## Configuration precedence -/

/-- Fields of `LoggingConfig`, in struct order. -/
structure LoggingConfigM where
  file : Str
  level : Int
deriving DecidableEq

def LoggingConfigM.fields (c : LoggingConfigM) : List GoField :=
  [.fstr c.file, .fint c.level]

/-- Built-in defaults of the `Logging` global (config.go lines 38-41). -/
def loggingBuiltin : LoggingConfigM := ⟨[], 4⟩

/-- Fields of `CNIConfig`, in struct order. -/
structure CNIConfigM where
  confDir : Str
  plugin : Str
  winHNSNetworkID : Str
deriving DecidableEq

def CNIConfigM.fields (c : CNIConfigM) : List GoField :=
  [.fstr c.confDir, .fstr c.plugin, .fstr c.winHNSNetworkID]

/-- Built-in defaults of the `CNI` global (config.go lines 44-48). -/
def cniBuiltin : CNIConfigM := ⟨str "/etc/cni/net.d", str "ovn-k8s-cni-overlay", []⟩

/-- Merged `Logging` section computed by InitConfigWithPath lines 643-644. -/
def initLoggingMerged (file cliv : LoggingConfigM) : List GoField :=
  mergeSection loggingBuiltin.fields file.fields cliv.fields

/-- Merged `CNI` section computed by InitConfigWithPath lines 639-640. -/
def initCNIMerged (file cliv : CNIConfigM) : List GoField :=
  mergeSection cniBuiltin.fields file.fields cliv.fields

/-- Concrete section fields used by the precedence witness. -/
def c2baseW : List GoField := [.fint 1400, .fstr []]

def c2fileW : List GoField := [.fint 1500, .fstr (str "/var/log")]

def c2cliW : List GoField := [.fint 1234, .fstr []]


/-! ## Arithmetic of CIDR masks -/

theorem maskTrunc_comp (h1 h2 x : Nat) (h : h2 ≤ h1) :
    maskTrunc h1 (maskTrunc h2 x) = maskTrunc h1 x := by
  obtain ⟨d, rfl⟩ := Nat.exists_eq_add_of_le h
  unfold maskTrunc
  congr 1
  rw [pow_add, Nat.mul_div_mul_left _ _ (Nat.pos_pow_of_pos h2 (by norm_num)),
    Nat.div_div_eq_div_mul]

theorem entryDisjoint_of_not_contains (a b : CIDRNetworkEntry)
    (hab : maskTrunc (32 - a.maskLen) b.base ≠ a.base)
    (hba : maskTrunc (32 - b.maskLen) a.base ≠ b.base) :
    EntryDisjoint a b := by
  rintro x ⟨hxa, hxb⟩
  rcases le_total (32 - a.maskLen) (32 - b.maskLen) with hle | hle
  · exact hba (by rw [← hxa, maskTrunc_comp _ _ _ hle, hxb])
  · exact hab (by rw [← hxb, maskTrunc_comp _ _ _ hle, hxa])

theorem cidrsOverlap_false_disjoint {base maskLen : Nat} {acc : List CIDRNetworkEntry}
    (hov : cidrsOverlap base maskLen acc = false) (hl : Nat) :
    ∀ a ∈ acc, EntryDisjoint a ⟨base, maskLen, hl⟩ := by
  intro a ha
  rw [cidrsOverlap, List.any_eq_false] at hov
  have h2 := hov a ha
  simp only [Bool.or_eq_true, goIPNetContains, beq_iff_eq, not_or] at h2
  exact entryDisjoint_of_not_contains _ _ h2.2 h2.1

theorem parseClusterSubnetLoop_pairwise :
    ∀ (l : List Str) (acc res : List CIDRNetworkEntry),
      acc.Pairwise EntryDisjoint →
      parseClusterSubnetLoop l acc = .ok res →
      res.Pairwise EntryDisjoint := by
  intro l
  induction l with
  | nil =>
    intro acc res hp h
    simp only [parseClusterSubnetLoop, Except.ok.injEq] at h
    exact h ▸ hp
  | cons e rest ih =>
    intro acc res hp h
    simp only [parseClusterSubnetLoop] at h
    split at h
    · exact absurd h (by simp)
    · split at h
      · exact absurd h (by simp)
      · rename_i b n hl heq hov
        rw [Bool.not_eq_true] at hov
        refine ih _ _ ?_ h
        rw [List.pairwise_append]
        refine ⟨hp, List.pairwise_singleton _ _, ?_⟩
        intro a ha y hy
        rw [List.mem_singleton] at hy
        exact hy ▸ cidrsOverlap_false_disjoint hov hl a ha

theorem listGetDAppendRight {α : Type} (a b : List α) (k : Nat) (d : α) :
    (a ++ b).getD (a.length + k) d = b.getD k d := by
  induction a with
  | nil => simp
  | cons x xs ih =>
    have hidx : xs.length + 1 + k = (xs.length + k) + 1 := by omega
    simp only [List.cons_append, List.length_cons, hidx, List.getD_cons_succ]
    exact ih

theorem parseClusterSubnetLoop_extends :
    ∀ (l : List Str) (acc res : List CIDRNetworkEntry),
      parseClusterSubnetLoop l acc = .ok res → ∃ ext, res = acc ++ ext := by
  intro l
  induction l with
  | nil =>
    intro acc res h
    simp only [parseClusterSubnetLoop, Except.ok.injEq] at h
    exact ⟨[], by simp [h]⟩
  | cons e rest ih =>
    intro acc res h
    simp only [parseClusterSubnetLoop] at h
    split at h
    · exact absurd h (by simp)
    · split at h
      · exact absurd h (by simp)
      · rename_i b n hl heq hov
        obtain ⟨ext, hext⟩ := ih _ _ h
        exact ⟨⟨b, n, hl⟩ :: ext, by simp [hext]⟩

theorem parseSubnetEntry_shape {e : Str} {b n hl : Nat}
    (h : parseSubnetEntry e = .ok (b, n, hl)) : entryShapeOK e ⟨b, n, hl⟩ := by
  rw [parseSubnetEntry] at h
  by_cases h3 : (splitOnChar '/' e).length = 3
  · rw [if_pos h3] at h
    exact ⟨Or.inr h3, fun h2 => absurd h3 (by omega)⟩
  · rw [if_neg h3] at h
    by_cases h2 : (splitOnChar '/' e).length = 2
    · rw [if_pos h2] at h
      refine ⟨Or.inl h2, fun _ => ?_⟩
      split at h
      · exact absurd h (by simp)
      · rename_i v base m heq
        simp only [Except.ok.injEq, Prod.mk.injEq] at h
        exact h.2.2.symm
    · rw [if_neg h2] at h
      exact absurd h (by simp)

theorem parseClusterSubnetLoop_entries :
    ∀ (l : List Str) (acc res : List CIDRNetworkEntry),
      parseClusterSubnetLoop l acc = .ok res →
      res.length = acc.length + l.length ∧
      ∀ k, k < l.length → entryShapeOK (l.getD k []) (res.getD (acc.length + k) default) := by
  intro l
  induction l with
  | nil =>
    intro acc res h
    simp only [parseClusterSubnetLoop, Except.ok.injEq] at h
    subst h
    exact ⟨by simp, fun k hk => absurd hk (by simp)⟩
  | cons e rest ih =>
    intro acc res h
    simp only [parseClusterSubnetLoop] at h
    split at h
    · exact absurd h (by simp)
    · split at h
      · exact absurd h (by simp)
      · rename_i b n hl heq hov
        obtain ⟨hlen, hent⟩ := ih _ _ h
        constructor
        · rw [hlen]; simp; omega
        · intro k hk
          cases k with
          | zero =>
            obtain ⟨ext, hext⟩ := parseClusterSubnetLoop_extends _ _ _ h
            rw [hext, List.append_assoc, Nat.add_zero]
            have hg := listGetDAppendRight acc ([(⟨b, n, hl⟩ : CIDRNetworkEntry)] ++ ext) 0 default
            rw [Nat.add_zero] at hg
            rw [hg]
            simpa using parseSubnetEntry_shape heq
          | succ kp =>
            have hidx : acc.length + (kp + 1) = (acc ++ [(⟨b, n, hl⟩ : CIDRNetworkEntry)]).length + kp := by
              simp; omega
            rw [hidx, List.getD_cons_succ]
            refine hent kp ?_
            simp only [List.length_cons] at hk
            omega

/-- C3 (amended): `parseClusterSubnetEntries` returns an error when an
entry's CIDR overlaps any earlier entry's CIDR, and every successfully
returned list of entries is pairwise non-overlapping; the relation between an
entry's host-prefix-length and its prefix length is not checked. -/
theorem c3_overlap_invariant :
    (∀ (s : Str) (l : List CIDRNetworkEntry),
       parseClusterSubnetEntries s = .ok l → l.Pairwise EntryDisjoint) ∧
    (∀ (e : Str) (rest : List Str) (acc : List CIDRNetworkEntry) (b n hl : Nat),
       parseSubnetEntry e = .ok (b, n, hl) → cidrsOverlap b n acc = true →
       parseClusterSubnetLoop (e :: rest) acc = .error .overlapping) := by
  constructor
  · intro s l h
    exact parseClusterSubnetLoop_pairwise _ _ _ List.Pairwise.nil h
  · intro e rest acc b n hl hpe hov
    simp [parseClusterSubnetLoop, hpe, hov]

/-- C3, counterexample to the claim as stated: the entry `10.0.0.0/24/24` has
host-prefix-length 24, which is not ≥ its prefix length 24 + 1, yet
`parseClusterSubnetEntries` accepts it instead of returning an error. -/
theorem c3_counterexample :
    parseClusterSubnetEntries (str "10.0.0.0/24/24") =
      .ok [⟨167772160, 24, 24⟩] ∧
    ¬((⟨167772160, 24, 24⟩ : CIDRNetworkEntry).maskLen + 1 ≤
        (⟨167772160, 24, 24⟩ : CIDRNetworkEntry).hostSubnetLength) := by
  constructor
  · decide
  · decide

/-- Witness for `c3_overlap_invariant` at the two-entry cluster subnet from
the flag's usage text. -/
theorem c3_witness :
    parseClusterSubnetEntries (str "10.128.0.0/14/23,10.0.0.0/14/23") =
      .ok [⟨176160768, 14, 23⟩, ⟨167772160, 14, 23⟩] ∧
    ([⟨176160768, 14, 23⟩, ⟨167772160, 14, 23⟩] : List CIDRNetworkEntry).Pairwise EntryDisjoint :=
  ⟨by decide, c3_overlap_invariant.1 (str "10.128.0.0/14/23,10.0.0.0/14/23") _ (by decide)⟩

/-- C9: every entry written with two slash-separated parts gets the default
host subnet length 24, and an entry whose number of slash-separated parts is
neither two nor three makes the parser fail with the format error
(`cluster-cidr not formatted properly`). -/
theorem c9_default_host_subnet_length :
    (∀ (s : Str) (l : List CIDRNetworkEntry),
       parseClusterSubnetEntries s = .ok l →
       l.length = (splitOnChar ',' s).length ∧
       ∀ k, k < (splitOnChar ',' s).length →
         entryShapeOK ((splitOnChar ',' s).getD k []) (l.getD k default)) ∧
    (∀ (e : Str) (rest : List Str) (acc : List CIDRNetworkEntry),
       (splitOnChar '/' e).length ≠ 2 → (splitOnChar '/' e).length ≠ 3 →
       parseClusterSubnetLoop (e :: rest) acc = .error .badFormat) := by
  constructor
  · intro s l h
    obtain ⟨hlen, hent⟩ := parseClusterSubnetLoop_entries _ _ _ h
    simp only [List.length_nil, Nat.zero_add] at hlen hent
    exact ⟨hlen, hent⟩
  · intro e rest acc h2 h3
    have hpe : parseSubnetEntry e = .error .badFormat := by
      rw [parseSubnetEntry, if_neg h3, if_neg h2]
    simp [parseClusterSubnetLoop, hpe]

/-- Witness for `c9_default_host_subnet_length` on a two-part entry. -/
theorem c9_witness :
    parseClusterSubnetEntries (str "10.0.0.0/16") = .ok [⟨167772160, 16, 24⟩] ∧
    entryShapeOK ((splitOnChar ',' (str "10.0.0.0/16")).getD 0 [])
      (([⟨167772160, 16, 24⟩] : List CIDRNetworkEntry).getD 0 default) :=
  ⟨by decide, (c9_default_host_subnet_length.1 _ _ (by decide)).2 0 (by decide)⟩

/-- C4 (amended): from a host subnet given in canonical form (address equal to
the masked base), `CreateManagementPort` derives the switch-to-router port
address as the successor of the subnet address (`HostSubnet[1]`, the second
address of the subnet) and the management port address as the successor of
that (`HostSubnet[2]`, the third address). -/
theorem c4_management_port_addresses :
    ∀ (s : Str) (ip base n : Nat), goParseCIDR s = some (ip, base, n) →
      createManagementPortAddresses s = some (nextIP ip, nextIP (nextIP ip), n) ∧
      (ip = base →
        nextIP ip = specHostSubnetAddr base 1 % 2 ^ 32 ∧
        nextIP (nextIP ip) = specHostSubnetAddr base 2 % 2 ^ 32) := by
  intro s ip base n h
  refine ⟨by simp [createManagementPortAddresses, h], fun hib => ?_⟩
  subst hib
  refine ⟨rfl, ?_⟩
  simp only [nextIP, specHostSubnetAddr]
  rw [Nat.mod_add_mod]

/-- C4, counterexample to the claim as stated: for the host subnet
`10.0.0.0/24` the switch-to-router port address computed by
`CreateManagementPort` is `10.0.0.1` (value 167772161), not the first address
`HostSubnet[0] = 10.0.0.0` of the subnet, and the management port address is
`10.0.0.2`, not the second address `HostSubnet[1] = 10.0.0.1` (the spec's S2
indexing reserves `.0` and `.1`). -/
theorem c4_counterexample :
    createManagementPortAddresses (str "10.0.0.0/24") = some (167772161, 167772162, 24) ∧
    167772161 ≠ specHostSubnetAddr 167772160 0 ∧
    167772162 ≠ specHostSubnetAddr 167772160 1 :=
  ⟨by decide, by decide, by decide⟩

/-- Witness for `c4_management_port_addresses` at the host subnet
`10.0.1.0/24` (address value 167772416). -/
theorem c4_witness :
    createManagementPortAddresses (str "10.0.1.0/24") =
      some (nextIP 167772416, nextIP (nextIP 167772416), 24) ∧
    (167772416 = 167772416 →
      nextIP 167772416 = specHostSubnetAddr 167772416 1 % 2 ^ 32 ∧
      nextIP (nextIP 167772416) = specHostSubnetAddr 167772416 2 % 2 ^ 32) :=
  c4_management_port_addresses (str "10.0.1.0/24") 167772416 167772416 24 (by decide)

/-- C8: `updateIP` on the single-endpoint address `ssl:1.2.3.4:6641` with new
master IP `5.6.7.8` produces `ssl:5.6.7.86641` — the Go code omits the colon
between the new IP and the preserved port field, so the result is not the
`scheme:newIP:port` form (`ssl:5.6.7.8:6641`) that the `OvnAddressForClient`
field documents and every consumer expects. -/
theorem c8_updateip_missing_colon :
    updateIP (str "ssl:1.2.3.4:6641") (str "5.6.7.8") = .ok (str "ssl:5.6.7.86641") ∧
    str "ssl:5.6.7.86641" ≠ str "ssl:5.6.7.8:6641" :=
  ⟨by decide, by decide⟩

/-- C10: an empty database address yields a unix-scheme auth with no key or
certificates; a key or certificate supplied together with an empty address is
rejected. -/
theorem c10_empty_address (k c ca : Str) :
    (k = [] ∧ c = [] ∧ ca = [] → newOvnDBAuth [] k c ca = .ok ⟨[], [], [], [], .unix⟩) ∧
    (k ≠ [] ∨ c ≠ [] ∨ ca ≠ [] → newOvnDBAuth [] k c ca = .error .certsWithoutAddress) := by
  constructor
  · rintro ⟨rfl, rfl, rfl⟩
    decide
  · intro h
    rw [newOvnDBAuth, if_pos rfl, if_pos h]

/-- Witness for `c10_empty_address` with a private key but no address. -/
theorem c10_witness :
    newOvnDBAuth [] (str "/key") [] [] = .error .certsWithoutAddress :=
  (c10_empty_address (str "/key") [] []).2 (Or.inl (by decide))

/-! ## Properties of the endpoint loop of `newOvnDBAuth` -/

theorem processOne_ok_endpointOK {a s : Str} {t : Str × Str × Str}
    (h : processOne a s = .ok t) : endpointHostOK a := by
  rw [processOne] at h
  split at h
  · rename_i hlen
    split at h
    · exact absurd h (by simp)
    · split at h
      · exact absurd h (by simp)
      · rename_i host port hshp
        split at h
        · exact absurd h (by simp)
        · rename_i v hip
          exact ⟨hlen, (host, port), hshp, by rw [hip]; rfl⟩
  · exact absurd h (by simp)

theorem processOne_ok_scheme {a s sch host port : Str}
    (h : processOne a s = .ok (sch, host, port)) :
    (s = [] → sch = schemePart a) ∧ (s ≠ [] → sch = s ∧ schemePart a = s) := by
  rw [processOne] at h
  split at h
  · split at h
    · exact absurd h (by simp)
    · rename_i hcond
      push_neg at hcond
      split at h
      · exact absurd h (by simp)
      · split at h
        · exact absurd h (by simp)
        · simp only [Except.ok.injEq, Prod.mk.injEq] at h
          obtain ⟨hs2, _, _⟩ := h
          constructor
          · intro hnil
            rw [← hs2, if_pos hnil]
            rfl
          · intro hne
            rw [← hs2, if_neg hne]
            exact ⟨rfl, by simpa [schemePart] using (hcond hne).symm⟩
  · exact absurd h (by simp)

theorem processOne_error_kinds {a s : Str} {e : OvnDBAuthError}
    (h : processOne a s = .error e) :
    e = .invalidProtocols ∨ e = .parseAddress ∨
    (∃ hp, e = .splitHostPortFailed hp) ∨ (∃ hp, e = .hostNotIP hp) := by
  rw [processOne] at h
  split at h
  · split at h
    · left
      injection h with h
      exact h.symm
    · split at h
      · injection h with h
        exact Or.inr (Or.inr (Or.inl ⟨_, h.symm⟩))
      · split at h
        · injection h with h
          exact Or.inr (Or.inr (Or.inr ⟨_, h.symm⟩))
        · exact absurd h (by simp)
  · refine Or.inr (Or.inl ?_)
    injection h with h
    exact h.symm

theorem processOne_uniform_not_invalid {a s s0 : Str} (hsp : schemePart a = s0)
    (hs : s = [] ∨ s = s0) : processOne a s ≠ .error .invalidProtocols := by
  intro h
  rw [processOne] at h
  split at h
  · split at h
    · rename_i hcond
      rcases hs with rfl | rfl
      · exact hcond.1 rfl
      · exact hcond.2 (by simpa [schemePart] using hsp.symm)
    · split at h
      · simp at h
      · split at h
        · simp at h
        · simp at h
  · simp at h

theorem process_ok_endpoints :
    ∀ (l : List Str) (s acc : Str) (res : Str × Str),
      processOvnAddresses l s acc = .ok res → ∀ e ∈ l, endpointHostOK e := by
  intro l
  induction l with
  | nil => intro s acc res h e he; exact absurd he (by simp)
  | cons a rest ih =>
    intro s acc res h e he
    simp only [processOvnAddresses] at h
    split at h
    · exact absurd h (by simp)
    · rename_i sch host port heq
      rcases List.mem_cons.mp he with rfl | hmem
      · exact processOne_ok_endpointOK heq
      · exact ih _ _ _ h e hmem

theorem process_ok_uniform :
    ∀ (l : List Str) (s acc : Str) (res : Str × Str), s ≠ [] →
      processOvnAddresses l s acc = .ok res → ∀ e ∈ l, schemePart e = s := by
  intro l
  induction l with
  | nil => intro s acc res _ _ e he; exact absurd he (by simp)
  | cons a rest ih =>
    intro s acc res hs h e he
    simp only [processOvnAddresses] at h
    split at h
    · exact absurd h (by simp)
    · rename_i sch host port heq
      obtain ⟨hss, hsa⟩ := (processOne_ok_scheme heq).2 hs
      rcases List.mem_cons.mp he with rfl | hmem
      · exact hsa
      · rw [← hss]
        exact ih _ _ _ (by rw [hss]; exact hs) h e hmem

theorem process_ok_nonempty_schemes :
    ∀ (l : List Str) (acc : Str) (res : Str × Str),
      processOvnAddresses l [] acc = .ok res →
      ∀ e1 ∈ l, ∀ e2 ∈ l, schemePart e1 ≠ [] → schemePart e2 ≠ [] →
        schemePart e1 = schemePart e2 := by
  intro l
  induction l with
  | nil => intro acc res _ e1 he1; exact absurd he1 (by simp)
  | cons a rest ih =>
    intro acc res h e1 he1 e2 he2 h1 h2
    simp only [processOvnAddresses] at h
    split at h
    · exact absurd h (by simp)
    · rename_i sch host port heq
      have hsch : sch = schemePart a := (processOne_ok_scheme heq).1 rfl
      by_cases ha : schemePart a = []
      · rw [hsch, ha] at h
        rcases List.mem_cons.mp he1 with rfl | hm1
        · exact absurd ha h1
        · rcases List.mem_cons.mp he2 with rfl | hm2
          · exact absurd ha h2
          · exact ih _ _ h e1 hm1 e2 hm2 h1 h2
      · have huni := process_ok_uniform rest sch _ res (by rw [hsch]; exact ha) h
        rcases List.mem_cons.mp he1 with rfl | hm1 <;> rcases List.mem_cons.mp he2 with rfl | hm2
        · rfl
        · rw [huni e2 hm2, hsch]
        · rw [huni e1 hm1, hsch]
        · rw [huni e1 hm1, huni e2 hm2]

theorem process_uniform_not_invalid :
    ∀ (l : List Str) (s acc s0 : Str),
      (∀ e ∈ l, schemePart e = s0) → (s = [] ∨ s = s0) →
      processOvnAddresses l s acc ≠ .error .invalidProtocols := by
  intro l
  induction l with
  | nil => intro s acc s0 _ _ h; simp [processOvnAddresses] at h
  | cons a rest ih =>
    intro s acc s0 hall hs h
    simp only [processOvnAddresses] at h
    split at h
    · rename_i err heq
      injection h with h
      subst h
      exact processOne_uniform_not_invalid (hall a (by simp)) hs heq
    · rename_i sch host port heq
      have hsch := processOne_ok_scheme heq
      have hs2 : sch = [] ∨ sch = s0 := by
        by_cases hnil : s = []
        · right
          rw [hsch.1 hnil]
          exact hall a (by simp)
        · right
          rw [(hsch.2 hnil).1]
          rcases hs with hx | hx
          · exact absurd hx hnil
          · exact hx
      exact ih _ _ s0 (fun e he => hall e (List.mem_cons_of_mem _ he)) hs2 h

theorem process_error_kinds :
    ∀ (l : List Str) (s acc : Str) (e : OvnDBAuthError),
      processOvnAddresses l s acc = .error e →
      e = .invalidProtocols ∨ e = .parseAddress ∨
      (∃ hp, e = .splitHostPortFailed hp) ∨ (∃ hp, e = .hostNotIP hp) := by
  intro l
  induction l with
  | nil => intro s acc e h; simp [processOvnAddresses] at h
  | cons a rest ih =>
    intro s acc e h
    simp only [processOvnAddresses] at h
    split at h
    · rename_i err heq
      injection h with h
      subst h
      exact processOne_error_kinds heq
    · exact ih _ _ _ h

/-- C5 (amended): a non-empty connection string is accepted only with scheme
`tcp` or `ssl`; any other parsed scheme — including `unix`, which applies
only to the empty address string — produces the unknown-scheme error. -/
theorem c5_scheme_classification (url k c ca : Str) (hne : url ≠ []) :
    (∀ a, newOvnDBAuth url k c ca = .ok a → a.scheme = .tcp ∨ a.scheme = .ssl) ∧
    (∀ s addr,
       processOvnAddresses (splitOnChar ',' (removeDoubleSlash url)) [] [] = .ok (s, addr) →
       s ≠ str "ssl" → s ≠ str "tcp" →
       newOvnDBAuth url k c ca = .error (.unknownScheme s)) := by
  constructor
  · intro a h
    rw [newOvnDBAuth, if_neg hne] at h
    split at h
    · exact absurd h (by simp)
    · rename_i s addr heq
      split at h
      · split at h
        · exact absurd h (by simp)
        · injection h with h
          subst h
          exact Or.inr rfl
      · split at h
        · split at h
          · exact absurd h (by simp)
          · injection h with h
            subst h
            exact Or.inl rfl
        · exact absurd h (by simp)
  · intro s addr hp hssl htcp
    rw [newOvnDBAuth, if_neg hne]
    simp only [hp]
    rw [if_neg hssl, if_neg htcp]

/-- C5, counterexample to the claim as stated: the endpoint
`unix:1.2.3.4:6641` is of the `scheme:ip:port` form with scheme `unix`, yet
`newOvnDBAuth` rejects it with the unknown-scheme error rather than accepting
it. -/
theorem c5_counterexample :
    newOvnDBAuth (str "unix:1.2.3.4:6641") [] [] [] =
      .error (.unknownScheme (str "unix")) := by
  decide

/-- Witness for `c5_scheme_classification` at the scheme `blah` from the unit
tests. -/
theorem c5_witness :
    newOvnDBAuth (str "blah://1.2.3.4:5555") [] [] [] =
      .error (.unknownScheme (str "blah")) :=
  (c5_scheme_classification (str "blah://1.2.3.4:5555") [] [] [] (by decide)).2
    (str "blah") (str "blah:1.2.3.4:5555") (by decide) (by decide) (by decide)

/-- C6 (amended): a string whose endpoints all carry one scheme field is never
rejected with the `Invalid protocols` error, and a string containing two
endpoints with distinct non-empty scheme fields is never accepted.  (The
original claim fails for empty scheme fields: endpoints with an empty scheme
field before the first non-empty one do not fix the scheme and are
tolerated.) -/
theorem c6_mixed_schemes (url k c ca : Str) :
    ((∃ s0, ∀ e ∈ splitOnChar ',' (removeDoubleSlash url), schemePart e = s0) →
       newOvnDBAuth url k c ca ≠ .error .invalidProtocols) ∧
    (∀ e1 e2, e1 ∈ splitOnChar ',' (removeDoubleSlash url) →
       e2 ∈ splitOnChar ',' (removeDoubleSlash url) →
       schemePart e1 ≠ [] → schemePart e2 ≠ [] → schemePart e1 ≠ schemePart e2 →
       ∀ a, newOvnDBAuth url k c ca ≠ .ok a) := by
  constructor
  · rintro ⟨s0, hall⟩ h
    by_cases hne : url = []
    · subst hne
      rw [newOvnDBAuth, if_pos rfl] at h
      split at h
      · simp at h
      · simp at h
    · rw [newOvnDBAuth, if_neg hne] at h
      split at h
      · rename_i err heq
        injection h with h
        subst h
        exact process_uniform_not_invalid _ _ _ s0 hall (Or.inl rfl) heq
      · rename_i s addr heq
        split at h
        · split at h
          · simp at h
          · simp at h
        · split at h
          · split at h
            · simp at h
            · simp at h
          · simp at h
  · intro e1 e2 he1 he2 h1 h2 hne12 a h
    by_cases hne : url = []
    · subst hne
      have he : e1 = [] := by
        simpa [removeDoubleSlash, splitOnChar] using he1
      apply h1
      rw [he]
      rfl
    · rw [newOvnDBAuth, if_neg hne] at h
      split at h
      · simp at h
      · rename_i s addr heq
        exact hne12 (process_ok_nonempty_schemes _ _ _ heq e1 he1 e2 he2 h1 h2)

/-- C6, counterexample to the claim as stated: the two endpoints of
`:1.2.3.4:80,tcp:5.6.7.8:90` carry different scheme fields (empty and `tcp`),
yet `newOvnDBAuth` accepts the string. -/
theorem c6_counterexample :
    newOvnDBAuth (str ":1.2.3.4:80,tcp:5.6.7.8:90") [] [] [] =
      .ok ⟨str ":1.2.3.4:80,tcp:5.6.7.8:90", [], [], [], .tcp⟩ ∧
    str ":1.2.3.4:80" ∈ splitOnChar ',' (removeDoubleSlash (str ":1.2.3.4:80,tcp:5.6.7.8:90")) ∧
    str "tcp:5.6.7.8:90" ∈ splitOnChar ',' (removeDoubleSlash (str ":1.2.3.4:80,tcp:5.6.7.8:90")) ∧
    schemePart (str ":1.2.3.4:80") ≠ schemePart (str "tcp:5.6.7.8:90") :=
  ⟨by decide, by decide, by decide, by decide⟩

/-- Witness for `c6_mixed_schemes` on a uniformly-`tcp` two-endpoint string. -/
theorem c6_witness :
    newOvnDBAuth (str "tcp:1.2.3.4:80,tcp:5.6.7.8:90") [] [] [] ≠
      .error .invalidProtocols :=
  (c6_mixed_schemes (str "tcp:1.2.3.4:80,tcp:5.6.7.8:90") [] [] []).1
    ⟨str "tcp", by decide⟩

/-- C7: every endpoint of an accepted non-empty connection string splits into
three fields whose host part parses as a numeric IP; and when the first
endpoint's host part fails to parse as a numeric IP, `newOvnDBAuth` fails
with the error naming that host and port. -/
theorem c7_host_must_be_ip :
    (∀ (url k c ca : Str) (a : OvnDBAuth), url ≠ [] →
       newOvnDBAuth url k c ca = .ok a →
       ∀ e ∈ splitOnChar ',' (removeDoubleSlash url), endpointHostOK e) ∧
    (∀ (url k c ca e : Str) (rest : List Str) (host port : Str), url ≠ [] →
       splitOnChar ',' (removeDoubleSlash url) = e :: rest →
       (splitOnChar ':' e).length = 3 →
       splitHostPortGo ((splitOnChar ':' e).getD 1 []) ((splitOnChar ':' e).getD 2 []) = some (host, port) →
       goParseIP host = none →
       newOvnDBAuth url k c ca =
         .error (.hostNotIP ((splitOnChar ':' e).getD 1 [] ++ ':' :: (splitOnChar ':' e).getD 2 []))) := by
  constructor
  · intro url k c ca a hne h e he
    rw [newOvnDBAuth, if_neg hne] at h
    split at h
    · exact absurd h (by simp)
    · rename_i s addr heq
      exact process_ok_endpoints _ _ _ _ heq e he
  · intro url k c ca e rest host port hne hsplit hlen hshp hip
    have h1 : processOne e [] =
        .error (.hostNotIP ((splitOnChar ':' e).getD 1 [] ++ ':' :: (splitOnChar ':' e).getD 2 [])) := by
      rw [processOne, if_pos hlen, if_neg (by simp), hshp]
      simp [hip]
    rw [newOvnDBAuth, if_neg hne, hsplit]
    simp only [processOvnAddresses, h1]

/-- Witness for `c7_host_must_be_ip` at the DNS-name host from the unit
tests. -/
theorem c7_witness :
    newOvnDBAuth (str "tcp://foobar.org:4444") [] [] [] =
      .error (.hostNotIP (str "foobar.org:4444")) :=
  c7_host_must_be_ip.2 (str "tcp://foobar.org:4444") [] [] []
    (str "tcp:foobar.org:4444") [] (str "foobar.org") (str "4444")
    (by decide) (by decide) (by decide) (by decide) (by decide)

/-! ## The SSL default certificate paths of `buildOvnAuth` -/

theorem strOverride_ne_nil {d s : Str} (hd : d ≠ []) : strOverride d s ≠ [] := by
  rw [strOverride]
  split
  · exact hd
  · rename_i hs
    exact hs

theorem sslDefaultPath_ne_nil (dir suffix : Str) :
    str "/etc/openvswitch/ovn" ++ dir ++ suffix ≠ [] := by
  intro hc
  rcases List.append_eq_nil.mp hc with ⟨h1, _⟩
  rcases List.append_eq_nil.mp h1 with ⟨h2, _⟩
  exact absurd h2 (by decide)

theorem buildOvnAuthRaw_ssl (dir : Str) (cliA confA : RawOvnAuthConfig) (ra : Bool) (ext : Str)
    (h : strStartsWith (effectiveOvnAddress cliA confA ra ext) (str "ssl") = true) :
    (buildOvnAuthRaw dir cliA confA ra ext).clientPrivKey =
      strOverride (strOverride (str "/etc/openvswitch/ovn" ++ dir ++ str "-privkey.pem")
        confA.clientPrivKey) cliA.clientPrivKey ∧
    (buildOvnAuthRaw dir cliA confA ra ext).clientCert =
      strOverride (strOverride (str "/etc/openvswitch/ovn" ++ dir ++ str "-cert.pem")
        confA.clientCert) cliA.clientCert ∧
    (buildOvnAuthRaw dir cliA confA ra ext).clientCACert =
      strOverride (strOverride (str "/etc/openvswitch/ovn" ++ dir ++ str "-ca.cert")
        confA.clientCACert) cliA.clientCACert := by
  rw [buildOvnAuthRaw, if_pos h]
  exact ⟨rfl, rfl, rfl⟩

theorem newOvnDBAuth_sslMissing {url k c ca : Str}
    (h : newOvnDBAuth url k c ca = .error .sslMissingCerts) : k = [] ∨ c = [] ∨ ca = [] := by
  rw [newOvnDBAuth] at h
  split at h
  · split at h
    · simp at h
    · simp at h
  · split at h
    · rename_i err heq
      injection h with h
      subst h
      rcases process_error_kinds _ _ _ _ heq with hx | hx | ⟨hp, hx⟩ | ⟨hp, hx⟩ <;> simp at hx
    · rename_i s addr heq
      split at h
      · split at h
        · rename_i hcond
          exact hcond
        · simp at h
      · split at h
        · split at h
          · simp at h
          · simp at h
        · simp at h

/-- C1 (amended): when the effective database address has the `ssl` scheme
prefix, `buildOvnAuth` installs non-empty default private key, certificate
and CA certificate paths before merging, so initialization does not fail with
the missing-certificate error; with `nb-address=ssl://...` and no
`client-privkey` the configuration succeeds using
`/etc/openvswitch/ovnnb-privkey.pem` (the claimed fatal ConfigError does not
occur; only `SetDBAuth`, at connection time, checks that the files exist). -/
theorem c1_ssl_default_certs (dir : Str) (cliA confA : RawOvnAuthConfig) (ra : Bool) (ext : Str)
    (h : strStartsWith (effectiveOvnAddress cliA confA ra ext) (str "ssl") = true) :
    (buildOvnAuthRaw dir cliA confA ra ext).clientPrivKey ≠ [] ∧
    (buildOvnAuthRaw dir cliA confA ra ext).clientCert ≠ [] ∧
    (buildOvnAuthRaw dir cliA confA ra ext).clientCACert ≠ [] ∧
    buildOvnAuth dir cliA confA ra ext ≠ .error .sslMissingCerts := by
  obtain ⟨hk, hc, hca⟩ := buildOvnAuthRaw_ssl dir cliA confA ra ext h
  have hpk : (buildOvnAuthRaw dir cliA confA ra ext).clientPrivKey ≠ [] := by
    rw [hk]
    exact strOverride_ne_nil (strOverride_ne_nil (sslDefaultPath_ne_nil _ _))
  have hcert : (buildOvnAuthRaw dir cliA confA ra ext).clientCert ≠ [] := by
    rw [hc]
    exact strOverride_ne_nil (strOverride_ne_nil (sslDefaultPath_ne_nil _ _))
  have hcacert : (buildOvnAuthRaw dir cliA confA ra ext).clientCACert ≠ [] := by
    rw [hca]
    exact strOverride_ne_nil (strOverride_ne_nil (sslDefaultPath_ne_nil _ _))
  refine ⟨hpk, hcert, hcacert, fun hbad => ?_⟩
  rw [buildOvnAuth] at hbad
  rcases newOvnDBAuth_sslMissing hbad with hx | hx | hx
  · exact hpk hx
  · exact hcert hx
  · exact hcacert hx

/-- C1, counterexample to the claim as stated: with
`nb-address=ssl://1.2.3.4:6641` on the command line and no `client-privkey`
(nor any other certificate option, config file entry, or discovered address),
`buildOvnAuth` succeeds — returning the default certificate and key paths —
instead of failing with a ConfigError. -/
theorem c1_counterexample :
    buildOvnAuth (str "nb") ⟨str "ssl://1.2.3.4:6641", [], [], []⟩
        emptyRawOvnAuthConfig false [] =
      .ok ⟨str "ssl:1.2.3.4:6641",
           str "/etc/openvswitch/ovnnb-privkey.pem",
           str "/etc/openvswitch/ovnnb-cert.pem",
           str "/etc/openvswitch/ovnnb-ca.cert", .ssl⟩ := by
  decide

/-- Witness for `c1_ssl_default_certs` on the southbound direction. -/
theorem c1_witness :
    (buildOvnAuthRaw (str "sb") ⟨str "ssl://5.6.7.8:6642", [], [], []⟩
        emptyRawOvnAuthConfig false []).clientPrivKey ≠ [] ∧
    (buildOvnAuthRaw (str "sb") ⟨str "ssl://5.6.7.8:6642", [], [], []⟩
        emptyRawOvnAuthConfig false []).clientCert ≠ [] ∧
    (buildOvnAuthRaw (str "sb") ⟨str "ssl://5.6.7.8:6642", [], [], []⟩
        emptyRawOvnAuthConfig false []).clientCACert ≠ [] ∧
    buildOvnAuth (str "sb") ⟨str "ssl://5.6.7.8:6642", [], [], []⟩
        emptyRawOvnAuthConfig false [] ≠ .error .sslMissingCerts :=
  c1_ssl_default_certs (str "sb") ⟨str "ssl://5.6.7.8:6642", [], [], []⟩
    emptyRawOvnAuthConfig false [] (by decide)

theorem overrideFields_getD :
    ∀ (dst src : List GoField) (k : Nat), k < dst.length → src.length = dst.length →
      (overrideFields dst src).getD k (.fint 0) =
        overrideField (dst.getD k (.fint 0)) (src.getD k (.fint 0)) := by
  intro dst
  induction dst with
  | nil => intro src k hk _; simp at hk
  | cons d ds ih =>
    intro src k hk hlen
    cases src with
    | nil => simp at hlen
    | cons s ss =>
      cases k with
      | zero => rfl
      | succ kp =>
        have hk2 : kp < ds.length := by
          simp only [List.length_cons] at hk
          omega
        have hl2 : ss.length = ds.length := by
          simp only [List.length_cons] at hlen
          omega
        have := ih ss kp hk2 hl2
        simpa [overrideFields, List.getD_cons_succ] using this

/-- C2: for every configuration field the value produced by InitConfig's
merge is the command-line value when that is non-zero/non-empty, otherwise
the config-file value when that is non-zero/non-empty, otherwise the base
value — where the base is the built-in default, replaced for the selected
Kubernetes fields by the `external_ids` discovery result.  Every section of
InitConfig is an instance of `mergeSection` over such a base. -/
theorem c2_precedence :
    (∀ (base file cliv : List GoField) (k : Nat),
       k < base.length → file.length = base.length → cliv.length = base.length →
       (mergeSection base file cliv).getD k (.fint 0) =
         if (cliv.getD k (.fint 0)).isZero = true then
           (if (file.getD k (.fint 0)).isZero = true then base.getD k (.fint 0)
            else file.getD k (.fint 0))
         else cliv.getD k (.fint 0)) ∧
    (∀ (ext : Str → Str) (d : DefaultsFlags) (file cliv : KubernetesConfigM),
       buildKubernetesFields ext d file cliv =
         mergeSection (k8sDiscover ext d).fields file.fields cliv.fields) ∧
    (∀ (file cliv : DefaultConfigM),
       initDefaultMerged file cliv = mergeSection defaultBuiltin.fields file.fields cliv.fields) ∧
    (∀ (file cliv : LoggingConfigM),
       initLoggingMerged file cliv = mergeSection loggingBuiltin.fields file.fields cliv.fields) ∧
    (∀ (file cliv : CNIConfigM),
       initCNIMerged file cliv = mergeSection cniBuiltin.fields file.fields cliv.fields) := by
  refine ⟨?_, fun _ _ _ _ => rfl, fun _ _ => rfl, fun _ _ => rfl, fun _ _ => rfl⟩
  intro base file cliv k hk hf hc
  have hlen1 : (overrideFields base file).length = base.length := by
    simp [overrideFields, hf]
  rw [mergeSection,
    overrideFields_getD _ _ k (by rw [hlen1]; exact hk) (by rw [hlen1]; exact hc),
    overrideFields_getD _ _ k hk hf]
  simp only [overrideField]

/-- Witness for `c2_precedence`: in a two-field section the CLI value 1234
beats the config-file value 1500 over the default 1400, and the config-file
string beats the empty default when the CLI leaves it empty. -/
theorem c2_witness :
    (mergeSection c2baseW c2fileW c2cliW).getD 0 (.fint 0) = .fint 1234 ∧
    (mergeSection c2baseW c2fileW c2cliW).getD 1 (.fint 0) = .fstr (str "/var/log") := by
  constructor
  · rw [c2_precedence.1 c2baseW c2fileW c2cliW 0 (by decide) (by decide) (by decide)]
    decide
  · rw [c2_precedence.1 c2baseW c2fileW c2cliW 1 (by decide) (by decide) (by decide)]
    decide
